import Mathlib

/-!
Shallow embedding of the suppression / notification core of
`consensus_health_checker.py` (torproject/doctor), together with the checker
functions the verified claims refer to.

Conventions used throughout:
* Python dicts that are only iterated or looked up are embedded as association
  lists (`List (key × value)`); iteration order of Python `dict`/`set` is
  unspecified, so list order stands in for it.
* Unix timestamps (`time.time()`, `datetime`) are embedded as `Int` seconds.
* Python 2 integer division (`/` on ints) is embedded as `Nat` division.
* Fallible code (a Python expression that raises) is embedded as an
  `Option`-returning function, `none` standing for the raised exception.
-/

namespace Doctor

/-- Runlevel enum (`stem.util.enum.UppercaseEnum('NOTICE', 'WARNING', 'ERROR')`). -/
inductive Runlevel where
  | NOTICE
  | WARNING
  | ERROR
deriving DecidableEq, Repr

/-- String rendering of a runlevel, as the uppercase enum renders in Python. -/
def Runlevel.toStr : Runlevel → String
  | .NOTICE => "NOTICE"
  | .WARNING => "WARNING"
  | .ERROR => "ERROR"

/-- An `Issue(runlevel, template, **attr)` from `consensus_health_checker.py`.
The keyword attributes are embedded as an association list of attribute name to
its string rendering; `to` is the `to = [...]` keyword (concerned authorities),
kept separately exactly as `Issue.__init__` keeps `attr.get('to', [])`. -/
structure Issue where
  runlevel : Runlevel
  template : String
  attrs : List (String × String)
  toAuth : List String
deriving DecidableEq, Repr

/-- Runtime configuration consumed by the suppression logic: `CONFIG['msg']`
(message templates; a template is embedded as the formatting function the
config's format string denotes, applied to the issue's attributes) and
`CONFIG['suppression']` (per-template suppression hours; a non-numeric config
value falls through to the severity default in the source, so entries here are
the numeric ones only). -/
structure Config where
  msg : List (String × (List (String × String) → String))
  suppression : List (String × Int)

/-- The `last_notified` config: persistent mapping of suppression key to the
last-sent unix timestamp. -/
abbrev Store := List (String × Int)

/-- Lookup with default 0, as `get_config('last_notified').get(key, 0)`. -/
def Store.get : Store → String → Int
  | [], _ => 0
  | (k, v) :: rest, key => if key = k then v else Store.get rest key

/-- The effect of `config.set(key, value, overwrite = True)` on lookups: the
new binding shadows any previous one (embedded by consing, which has the same
`Store.get` semantics as replacing the stored entry). -/
def Store.set (st : Store) (k : String) (v : Int) : Store :=
  (k, v) :: st

/-- `Issue.get_message`: format the configured template with the issue's
attributes; a missing template (or a formatting error) degrades to `''`. -/
def get_message (c : Config) (template : String) (attrs : List (String × String)) : String :=
  match c.msg.lookup template with
  | some render => render attrs
  | none => ""

/-- Attribute overrides applied by `Issue.get_suppression_key` before
formatting, for the three templates whose dynamic high-cardinality attributes
are zeroed out (`dict.update` lets the overrides shadow the originals, which
prepending models for lookups). -/
def suppression_attrs (i : Issue) : List (String × String) :=
  if i.template = "TOO_MANY_UNMEASURED_RELAYS" then
    [("unmeasured", "0"), ("total", "0"), ("percentage", "0")] ++ i.attrs
  else if i.template = "BANDWIDTH_AUTHORITIES_OUT_OF_SYNC" then
    [("authorities", "")] ++ i.attrs
  else if i.template = "LATENCY" then
    [("authority", ""), ("time_taken", ""), ("median_time", ""), ("authority_times", "")] ++ i.attrs
  else
    i.attrs

/-- `Issue.get_suppression_key`: the (attribute-adjusted) rendered message with
spaces replaced by underscores. -/
def get_suppression_key (c : Config) (i : Issue) : String :=
  (get_message c i.template (suppression_attrs i)).replace " " "_"

/-- `Issue.get_suppression_duration`: the per-template configured hours when
present (and numeric), otherwise the severity default — NOTICE 24h, WARNING 4h,
ERROR 0 ("no suppression for errors"). -/
def get_suppression_duration (c : Config) (i : Issue) : Int :=
  match c.suppression.lookup i.template with
  | some d => d
  | none =>
    match i.runlevel with
    | .NOTICE => 24
    | .WARNING => 4
    | .ERROR => 0

/-- `is_rate_limited(issue)` over the explicit store and clock. Faithful to the
source, including its `hours == 0` branch which returns `True`
(`consensus_health_checker.py` line 184). -/
def is_rate_limited (c : Config) (st : Store) (now : Int) (issue : Issue) : Bool :=
  let key := get_suppression_key c issue
  let hours := get_suppression_duration c issue
  if hours = 0 then
    true
  else
    let last_seen := st.get key
    let suppression_time := 3600 * hours + 1800
    let suppression_time_remaining := suppression_time - (now - last_seen)
    if suppression_time_remaining ≤ 0 then
      false
    else
      true

/-- `rate_limit_notice(issue)`: record the send time under the suppression key
and persist (`config.save()`), unless the suppression duration is 0, in which
case it returns before touching the store. The returned `Bool` records whether
`config.save()` was reached (the store was re-persisted). -/
def rate_limit_notice (c : Config) (st : Store) (now : Int) (issue : Issue) : Store × Bool :=
  let key := get_suppression_key c issue
  let hours := get_suppression_duration c issue
  if hours = 0 then
    (st, false)
  else
    (st.set key now, true)

/-- String rendering of an issue, `Issue.__str__`: `"%s: %s" % (runlevel, message)`. -/
def Issue.toStr (c : Config) (i : Issue) : String :=
  i.runlevel.toStr ++ ": " ++ get_message c i.template i.attrs

/-- Store updates performed by `main`'s dispatch loop: `rate_limit_notice` is
applied to every issue of the run, in order. -/
def record_sent_all (c : Config) (now : Int) (issues : List Issue) (st : Store) : Store :=
  issues.foldl (fun s i => (rate_limit_notice c s now i).1) st

/-- The suppression/notification tail of `main` (lines 248–288): if every issue
is rate limited (in particular if there are none), nothing is sent and the
store is untouched; otherwise every issue is recorded as sent and one
consolidated body — the issues' renderings joined by newlines — is dispatched
(the source additionally sends a condensed per-line copy of the same issues to
the #tor-bots announce address). Returns the resulting store and `some body`
when a notification is sent. -/
def dispatch (c : Config) (st : Store) (now : Int) (issues : List Issue) :
    Store × Option String :=
  let is_all_suppressed := issues.all (fun issue => is_rate_limited c st now issue)
  if is_all_suppressed then
    (st, none)
  else
    (record_sent_all c now issues st,
     some (String.intercalate "\n" (issues.map (fun issue => issue.toStr c))))

end Doctor

namespace Doctor

/-- Empty runtime configuration: no message templates, no per-template
suppression overrides (all durations fall to the severity defaults). -/
def cfg0 : Config := { msg := [], suppression := [] }

/-- A fetch-failure issue as built by `_get_documents` on an unreachable
authority: `Issue(Runlevel.ERROR, 'AUTHORITY_UNAVAILABLE', ...)`. -/
def issueAuthorityUnavailable : Issue :=
  { runlevel := .ERROR
    template := "AUTHORITY_UNAVAILABLE"
    attrs := [("fetch_type", "consensus"), ("authority", "moria1"),
              ("url", "http://128.31.0.39/consensus"), ("error", "timeout")]
    toAuth := ["moria1"] }

/-- A NOTICE-severity issue (severity-default suppression of 24 hours). -/
def issueNotice : Issue :=
  { runlevel := .NOTICE
    template := "MISSING_VOTES"
    attrs := [("authorities", "moria1")]
    toAuth := ["moria1"] }

end Doctor

namespace Doctor

/-- C1: the spec says a suppression duration of 0 hours means "never suppress"
(`is_rate_limited` returns false, the issue is always reported), but the source
(`consensus_health_checker.py` lines 183–184) returns `True` when
`hours == 0` — a duration-0 issue such as an `AUTHORITY_UNAVAILABLE` ERROR is
treated as always suppressed, even against an empty last-notified store. This
contradicts `get_suppression_duration`'s own documentation ("This is zero if
the message shouldn't be suppressed" / "no suppression for errors"): evaluated
at the failing input, the duration is 0 and `is_rate_limited` is `true`. -/
theorem claim_C1_zero_duration_is_suppressed :
    get_suppression_duration cfg0 issueAuthorityUnavailable = 0 ∧
    is_rate_limited cfg0 [] 1700000000 issueAuthorityUnavailable = true := by
  constructor <;> rfl

/-- C3: for a positive suppression duration `h`, `is_rate_limited` is true iff
`now - last_sent < h*3600 + 1800` (half-hour grace), where `last_sent` defaults
to 0 for an absent key; a second call on the same store and clock is the same
application and hence returns the same result; and immediately after
`rate_limit_notice` the issue is rate limited. -/
theorem claim_C3_suppression_window (c : Config) (st : Store) (now : Int) (i : Issue)
    (h : 0 < get_suppression_duration c i) :
    (is_rate_limited c st now i = true ↔
      now - Store.get st (get_suppression_key c i) <
        3600 * get_suppression_duration c i + 1800)
    ∧ is_rate_limited c st now i = is_rate_limited c st now i
    ∧ is_rate_limited c ((rate_limit_notice c st now i).1) now i = true := by
  have hne : ¬ (get_suppression_duration c i = 0) := by omega
  refine ⟨?_, rfl, ?_⟩
  · unfold is_rate_limited
    simp only [if_neg hne]
    split_ifs with hrem
    · constructor
      · intro hfalse
        exact absurd hfalse (by simp)
      · intro hlt
        omega
    · constructor
      · intro _
        omega
      · intro _
        rfl
  · unfold is_rate_limited rate_limit_notice
    simp only [if_neg hne, Store.set, Store.get, if_pos]
    split_ifs with hrem
    · omega
    · rfl

/-- Witness for C3 at a concrete NOTICE issue (duration 24h) and empty store. -/
theorem claim_C3_suppression_window_witness :
    0 < get_suppression_duration cfg0 issueNotice ∧
    ((is_rate_limited cfg0 [] 1000 issueNotice = true ↔
        1000 - Store.get [] (get_suppression_key cfg0 issueNotice) <
          3600 * get_suppression_duration cfg0 issueNotice + 1800)
      ∧ is_rate_limited cfg0 [] 1000 issueNotice = is_rate_limited cfg0 [] 1000 issueNotice
      ∧ is_rate_limited cfg0 ((rate_limit_notice cfg0 [] 1000 issueNotice).1) 1000 issueNotice
          = true) :=
  ⟨by decide, claim_C3_suppression_window cfg0 [] 1000 issueNotice (by decide)⟩

/-- C10: `rate_limit_notice` on a duration-0 issue returns before writing: the
store is unchanged (no key written) and `config.save()` is never reached. -/
theorem claim_C10_zero_duration_never_recorded (c : Config) (st : Store) (now : Int)
    (i : Issue) (h : get_suppression_duration c i = 0) :
    rate_limit_notice c st now i = (st, false) := by
  unfold rate_limit_notice
  simp [h]

/-- Witness for C10 at the concrete ERROR fetch-failure issue. -/
theorem claim_C10_zero_duration_never_recorded_witness :
    get_suppression_duration cfg0 issueAuthorityUnavailable = 0 ∧
    rate_limit_notice cfg0 [("k", 5)] 99 issueAuthorityUnavailable = ([("k", 5)], false) :=
  ⟨by decide,
   claim_C10_zero_duration_never_recorded cfg0 [("k", 5)] 99 issueAuthorityUnavailable
     (by decide)⟩

end Doctor

namespace Doctor

/-- A fold of `rate_limit_notice` leaves a key's stored value unchanged when no
processed issue both bears that key and has a nonzero suppression duration. -/
theorem record_sent_all_get_of_not_touched (c : Config) (now : Int)
    (issues : List Issue) (st : Store) (k : String)
    (h : ∀ i ∈ issues, get_suppression_duration c i = 0 ∨ get_suppression_key c i ≠ k) :
    Store.get (record_sent_all c now issues st) k = Store.get st k := by
  induction issues generalizing st with
  | nil => rfl
  | cons i rest ih =>
    have hstep :
        Store.get ((rate_limit_notice c st now i).1) k = Store.get st k := by
      rcases h i (by simp) with h0 | hk
      · simp [rate_limit_notice, h0]
      · by_cases hz : get_suppression_duration c i = 0
        · simp [rate_limit_notice, hz]
        · simp [rate_limit_notice, hz, Store.set, Store.get, Ne.symm hk]
    have hrest : ∀ i ∈ rest, get_suppression_duration c i = 0 ∨ get_suppression_key c i ≠ k :=
      fun j hj => h j (by simp [hj])
    calc Store.get (record_sent_all c now (i :: rest) st) k
        = Store.get (record_sent_all c now rest ((rate_limit_notice c st now i).1)) k := rfl
      _ = Store.get ((rate_limit_notice c st now i).1) k := ih _ hrest
      _ = Store.get st k := hstep

/-- C2: on a non-empty issue list, `main`'s dispatch tail behaves all-or-nothing:
if at least one issue is not suppressed, the store becomes the fold of
`rate_limit_notice` over every issue (each issue is marked as sent) and the
dispatched body is the newline-join of every issue's rendering; if every issue
is suppressed, the store is untouched and nothing is dispatched. Moreover a
key's stored value changes only when a notification was actually dispatched and
some dispatched issue bears that key with a nonzero suppression duration. -/
theorem claim_C2_all_or_nothing_dispatch (c : Config) (st : Store) (now : Int)
    (issues : List Issue) (_hne : issues ≠ []) :
    ((∃ i ∈ issues, is_rate_limited c st now i = false) →
        (dispatch c st now issues).1 = record_sent_all c now issues st ∧
        (dispatch c st now issues).2 =
          some (String.intercalate "\n" (issues.map (fun i => i.toStr c))))
    ∧ ((∀ i ∈ issues, is_rate_limited c st now i = true) →
        dispatch c st now issues = (st, none))
    ∧ (∀ k : String,
        Store.get (dispatch c st now issues).1 k ≠ Store.get st k →
        (∃ i ∈ issues, is_rate_limited c st now i = false) ∧
        ∃ i ∈ issues, get_suppression_key c i = k ∧ get_suppression_duration c i ≠ 0) := by
  by_cases hall : issues.all (fun issue => is_rate_limited c st now issue) = true
  · have hdef : dispatch c st now issues = (st, none) := by
      unfold dispatch
      simp [hall]
    refine ⟨?_, fun _ => hdef, ?_⟩
    · rintro ⟨i, hi, hfalse⟩
      have := List.all_eq_true.mp hall i hi
      simp [this] at hfalse
    · intro k hk
      rw [hdef] at hk
      exact absurd rfl hk
  · have hdef :
        dispatch c st now issues =
          (record_sent_all c now issues st,
           some (String.intercalate "\n" (issues.map (fun i => i.toStr c)))) := by
      unfold dispatch
      simp only [if_neg hall]
    have hex : ∃ i ∈ issues, is_rate_limited c st now i = false := by
      by_contra hno
      push_neg at hno
      exact hall (List.all_eq_true.mpr fun i hi => by
        have := hno i hi
        cases hb : is_rate_limited c st now i
        · exact absurd hb this
        · rfl)
    refine ⟨fun _ => by rw [hdef]; exact ⟨rfl, rfl⟩, fun hforall => ?_, ?_⟩
    · exact absurd (List.all_eq_true.mpr fun i hi => hforall i hi) hall
    · intro k hk
      refine ⟨hex, ?_⟩
      by_contra hno
      push_neg at hno
      rw [hdef] at hk
      exact hk (record_sent_all_get_of_not_touched c now issues st k
        (fun i hi => by
          by_cases h0 : get_suppression_duration c i = 0
          · exact Or.inl h0
          · exact Or.inr fun hkk => h0 (hno i hi hkk)))

/-- Witness for C2: a single unsuppressed NOTICE issue (empty store, a clock
past the 24.5 hour window) is dispatched and recorded. -/
theorem claim_C2_all_or_nothing_dispatch_witness :
    (dispatch cfg0 [] 200000 [issueNotice]).1 = record_sent_all cfg0 200000 [issueNotice] [] ∧
    (dispatch cfg0 [] 200000 [issueNotice]).2 =
      some (String.intercalate "\n" ([issueNotice].map (fun i => i.toStr cfg0))) :=
  (claim_C2_all_or_nothing_dispatch cfg0 [] 200000 [issueNotice] (by decide)).1
    ⟨issueNotice, by decide, by decide⟩

end Doctor

namespace Doctor

/-- Router status entry, with the fields the embedded checks read. The source's
`routers` mappings are dicts keyed by fingerprint; they are embedded as lists,
key membership becoming membership among the routers' fingerprints. -/
structure Router where
  fingerprint : String
  nickname : String
  flags : List String
  measured : Option Int
deriving DecidableEq, Repr

/-- Key certificate of a vote's directory-authority entry; `expires` is the
expiry timestamp in seconds. -/
structure KeyCertificate where
  expires : Int
deriving DecidableEq, Repr

/-- Directory-authority entry of a vote. -/
structure DirectoryAuthority where
  key_certificate : KeyCertificate
deriving DecidableEq, Repr

/-- Vote document fields used by the embedded checks. -/
structure Vote where
  routers : List Router
  client_versions : List String
  directory_authorities : List DirectoryAuthority
deriving DecidableEq, Repr

/-- Consensus document fields used by the embedded checks. -/
structure Consensus where
  routers : List Router
  client_versions : List String
deriving DecidableEq, Repr

/-- The issue built by each band of `certificate_expiration`; the
`expiration_label` is `'%s (%s)' % (authority, expires)` (the source formats
the expiry with `strftime`, embedded here as the timestamp's rendering). -/
def certExpireIssue (rl : Runlevel) (dur : String) (authority : String) (expires : Int) : Issue :=
  { runlevel := rl
    template := "CERTIFICATE_ABOUT_TO_EXPIRE"
    attrs := [("duration", dur), ("authority", authority ++ " (" ++ toString expires ++ ")")]
    toAuth := [authority] }

/-- Per-vote banding of `certificate_expiration` (lines 469–477): 7/14/21-day
bands of `cert_expiration - current_time`, a day being 86400 seconds. -/
def cert_band (now : Int) (authority : String) (da : DirectoryAuthority) : Option Issue :=
  let cert_expiration := da.key_certificate.expires
  if cert_expiration - now ≤ 7 * 86400 then
    some (certExpireIssue .WARNING "week" authority cert_expiration)
  else if cert_expiration - now ≤ 14 * 86400 then
    some (certExpireIssue .WARNING "two weeks" authority cert_expiration)
  else if cert_expiration - now ≤ 21 * 86400 then
    some (certExpireIssue .NOTICE "three weeks" authority cert_expiration)
  else
    none

/-- `certificate_expiration`: bands each vote's (single) directory-authority
certificate. `vote.directory_authorities[0]` raises on a vote without such an
entry, embedded as `none`. -/
def certificate_expiration (now : Int) : List (String × Vote) → Option (List Issue)
  | [] => some []
  | (authority, vote) :: rest =>
    match vote.directory_authorities with
    | [] => none
    | da :: _ =>
      match certificate_expiration now rest with
      | none => none
      | some issues => some ((cert_band now authority da).toList ++ issues)

/-- Per-authority measurement counts of `bandwidth_authorities_in_sync`:
authorities whose vote has at least one router with a measurement, paired with
that count. -/
def measurement_counts (votes : List (String × Vote)) : List (String × Nat) :=
  votes.filterMap (fun av =>
    let measured := (av.2.routers.filter (fun r => r.measured.isSome)).length
    if measured = 0 then none else some (av.1, measured))

/-- `bandwidth_authorities_in_sync` (lines 702–725): alarm when any authority's
measurement count deviates more than 20% from the average. `average` is the
Python 2 integer division `sum / len`; the float comparisons against
`1.2 * average` and `0.8 * average` are embedded as the exact rational
comparisons `5*count > 6*average` and `5*count < 4*average`. -/
def bandwidth_authorities_in_sync (votes : List (String × Vote)) : Option Issue :=
  let counts := measurement_counts votes
  if counts.isEmpty then
    none
  else
    let average := (counts.map (fun ac => ac.2)).sum / counts.length
    if counts.any (fun ac => decide (5 * ac.2 > 6 * average) || decide (5 * ac.2 < 4 * average)) then
      some { runlevel := .NOTICE
             template := "BANDWIDTH_AUTHORITIES_OUT_OF_SYNC"
             attrs := [("authorities", String.intercalate ", "
               (counts.map (fun ac => ac.1 ++ " (" ++ toString ac.2 ++ ")")))]
             toAuth := counts.map (fun ac => ac.1) }
    else
      none

/-- Nicknames seen with the Authority flag in the latest consensus
(`seen_authorities`, a Python set — embedded as a deduplicated list). -/
def seen_authority_nicknames (latest : Consensus) : List String :=
  ((latest.routers.filter (fun r => r.flags.contains "Authority")).map
    (fun r => r.nickname)).dedup

/-- Known authorities absent from `seen_authority_nicknames`
(`known_authorities.difference(seen_authorities)`). -/
def missing_authorities (known_authorities : List String) (latest : Consensus) : List String :=
  known_authorities.filter (fun a => ! (seen_authority_nicknames latest).contains a)

/-- `has_authority_flag` (lines 588–611). Only the missing-authorities WARNING
is live: the `extra_authorities` NOTICE branch is commented out in the source
("TODO: Re-enable when Tonga is gone"). -/
def has_authority_flag (known_authorities : List String) (latest : Consensus) : List Issue :=
  let missing := missing_authorities known_authorities latest
  if missing.isEmpty then
    []
  else
    [{ runlevel := .WARNING
       template := "MISSING_AUTHORITIES"
       attrs := [("authorities", String.intercalate ", " missing)]
       toAuth := missing }]

/-- `_version_difference_str` (lines 400–419): `authority` followed by ` +v`
for each version only in the vote and ` -v` for each version only in the
consensus; the Python sets are embedded as deduplicated lists. -/
def _version_difference_str (authority : String) (consensus_versions vote_versions : List String) :
    String :=
  let cset := consensus_versions.dedup
  let vset := vote_versions.dedup
  let msg := (vset.filter (fun v => ! cset.contains v)).foldl
    (fun m v => m ++ " +" ++ v) authority
  (cset.filter (fun v => ! vset.contains v)).foldl (fun m v => m ++ " -" ++ v) msg

/-- Per-authority difference entries of
`different_recommended_client_version`: authorities whose vote has a non-empty
`client_versions` differing from the latest consensus's. -/
def client_version_differences (latest : Consensus) (votes : List (String × Vote)) :
    List (String × String) :=
  votes.filterMap (fun av =>
    if av.2.client_versions ≠ [] ∧ latest.client_versions ≠ av.2.client_versions then
      some (av.1, _version_difference_str av.1 latest.client_versions av.2.client_versions)
    else
      none)

/-- `different_recommended_client_version` (lines 374–384). -/
def different_recommended_client_version (latest : Consensus) (votes : List (String × Vote)) :
    Option Issue :=
  let differences := client_version_differences latest votes
  if differences.isEmpty then
    none
  else
    some { runlevel := .NOTICE
           template := "DIFFERENT_RECOMMENDED_VERSION"
           attrs := [("type", "client"),
                     ("differences", String.intercalate ", " (differences.map (fun d => d.2)))]
           toAuth := differences.map (fun d => d.1) }

end Doctor

namespace Doctor

/-- Fingerprints carrying the BadExit flag in a vote (`flagged` in
`bad_exits_in_sync`). -/
def badExitFlagged (v : Vote) : List String :=
  (v.routers.filter (fun r => r.flags.contains "BadExit")).map (fun r => r.fingerprint)

/-- The `bad_exits` mapping of `bad_exits_in_sync`: authorities whose vote
flags at least one fingerprint, with their vote kept alongside (the source
stores the flagged set and looks the vote back up in the `votes` dict; dict
keys are unique so the pair carries the same information). -/
def bad_exits_of (votes : List (String × Vote)) : List (String × Vote) :=
  votes.filter (fun av => ! (badExitFlagged av.2).isEmpty)

/-- Fingerprints flagged by at least one but not all flag-voting authorities:
`set.union(*..).difference(set.intersection(*..))`, embedded as the
deduplicated concatenation filtered by "not in every flagged set". -/
def disagreed_bad_exits (votes : List (String × Vote)) : List String :=
  ((bad_exits_of votes).map (fun av => badExitFlagged av.2)).flatten.dedup.filter
    (fun fp => ! (bad_exits_of votes).all (fun av => (badExitFlagged av.2).contains fp))

/-- Flag-voting authorities whose vote flags the fingerprint (`with_flag`). -/
def with_flag_for (votes : List (String × Vote)) (fp : String) : List String :=
  ((bad_exits_of votes).filter (fun av => (badExitFlagged av.2).contains fp)).map
    (fun av => av.1)

/-- Flag-voting authorities that do not flag the fingerprint but do carry it in
their vote (`without_flag`). -/
def without_flag_for (votes : List (String × Vote)) (fp : String) : List String :=
  ((bad_exits_of votes).filter (fun av =>
    (! (badExitFlagged av.2).contains fp)
      && (av.2.routers.map (fun r => r.fingerprint)).contains fp)).map (fun av => av.1)

/-- Flag-voting authorities that do not flag the fingerprint and do not carry
it in their vote at all (`not_in_vote`). -/
def not_in_vote_for (votes : List (String × Vote)) (fp : String) : List String :=
  ((bad_exits_of votes).filter (fun av =>
    (! (badExitFlagged av.2).contains fp)
      && ! (av.2.routers.map (fun r => r.fingerprint)).contains fp)).map (fun av => av.1)

/-- The `counts` attribute of a BADEXIT_OUT_OF_SYNC issue: `with flag: ...`
always, `without flag: ...` and `not in vote: ...` when non-empty, joined by
`, `. -/
def badExitCounts (with_flag without_flag not_in_vote : List String) : String :=
  String.intercalate ", "
    (["with flag: " ++ String.intercalate ", " with_flag]
      ++ (if without_flag.isEmpty then [] else
            ["without flag: " ++ String.intercalate ", " without_flag])
      ++ (if not_in_vote.isEmpty then [] else
            ["not in vote: " ++ String.intercalate ", " not_in_vote]))

/-- The NOTICE issue emitted for one out-of-sync BadExit fingerprint. -/
def badExitIssue (votes : List (String × Vote)) (fp : String) : Issue :=
  { runlevel := .NOTICE
    template := "BADEXIT_OUT_OF_SYNC"
    attrs := [("fingerprint", fp),
              ("counts", badExitCounts (with_flag_for votes fp) (without_flag_for votes fp)
                (not_in_vote_for votes fp))]
    toAuth := (bad_exits_of votes).map (fun av => av.1) }

/-- Loop body of `bad_exits_in_sync` for one disagreed fingerprint: skip when
no non-flagging authority actually carries the fingerprint, skip when the
fingerprint is not in the latest consensus, otherwise emit the issue. -/
def bad_exit_issue_for (latest : Consensus) (votes : List (String × Vote)) (fp : String) :
    Option Issue :=
  if (without_flag_for votes fp).isEmpty then
    none
  else if ! (latest.routers.map (fun r => r.fingerprint)).contains fp then
    none
  else
    some (badExitIssue votes fp)

/-- `bad_exits_in_sync` (lines 646–699). -/
def bad_exits_in_sync (latest : Consensus) (votes : List (String × Vote)) : List Issue :=
  if (bad_exits_of votes).isEmpty then
    []
  else
    (disagreed_bad_exits votes).filterMap (bad_exit_issue_for latest votes)

/-- `unmeasured_relays` (lines 562–585): for each bandwidth authority, count
the vote routers present in the latest consensus with and without a
measurement; `percentage = 100 * unmeasured / total` is an unguarded Python 2
integer division, raising `ZeroDivisionError` when `total = 0` — embedded as
`none`. (The source also reads `authority.nickname` off the dict-key string
when building the issue; the authority string itself stands in for it. The
check is commented out of `run_checks`'s active checker list.) -/
def unmeasured_relays (is_bandwidth_authority : String → Bool) (latest : Consensus) :
    List (String × Vote) → Option (List Issue)
  | [] => some []
  | (authority, vote) :: rest =>
    if is_bandwidth_authority authority then
      let counted := vote.routers.filter (fun r =>
        (latest.routers.map (fun d => d.fingerprint)).contains r.fingerprint)
      let measured := (counted.filter (fun r => r.measured.isSome)).length
      let unmeasured := (counted.filter (fun r => ! r.measured.isSome)).length
      let total := measured + unmeasured
      if total = 0 then
        none
      else
        let percentage := 100 * unmeasured / total
        match unmeasured_relays is_bandwidth_authority latest rest with
        | none => none
        | some issues =>
          some ((if percentage ≥ 5 then
                   [{ runlevel := .NOTICE
                      template := "TOO_MANY_UNMEASURED_RELAYS"
                      attrs := [("authority", authority), ("unmeasured", toString unmeasured),
                                ("total", toString total), ("percentage", toString percentage)]
                      toAuth := [authority] }]
                 else []) ++ issues)
    else
      unmeasured_relays is_bandwidth_authority latest rest

end Doctor

namespace Doctor

/-- A vote whose routers carry `n` measurements (`measured` set on each of `n`
routers with distinct fingerprints). -/
def measuredVote (n : Nat) : Vote :=
  { routers := (List.range n).map (fun j =>
      { fingerprint := toString j, nickname := "", flags := [], measured := some 1 })
    client_versions := []
    directory_authorities := [] }

/-- C5: measurement-count parity at the spec's concrete inputs. With counts
{maatuska: 100, longclaw: 105, moria1: 50} (average 85; 5*50 < 4*85) one NOTICE
issue lists all three authorities with their counts; with {100, 95} (average 97
after integer division, both within 20%) no issue; with no measurements at all
the empty-counts guard returns with no issue and no division. -/
theorem claim_C5_measurement_count_parity :
    bandwidth_authorities_in_sync
        [("maatuska", measuredVote 100), ("longclaw", measuredVote 105),
         ("moria1", measuredVote 50)] =
      some { runlevel := .NOTICE
             template := "BANDWIDTH_AUTHORITIES_OUT_OF_SYNC"
             attrs := [("authorities", "maatuska (100), longclaw (105), moria1 (50)")]
             toAuth := ["maatuska", "longclaw", "moria1"] }
    ∧ bandwidth_authorities_in_sync
        [("maatuska", measuredVote 100), ("longclaw", measuredVote 95)] = none
    ∧ bandwidth_authorities_in_sync [("maatuska", measuredVote 0)] = none := by
  refine ⟨?_, ?_, ?_⟩ <;> rfl

/-- C6: certificate-expiry banding for a vote with exactly one
directory-authority entry: within 7 days of now a WARNING "week" issue, more
than 7 but within 14 days a WARNING "two weeks" issue, more than 14 but within
21 days a NOTICE "three weeks" issue, and more than 21 days out no issue. -/
theorem claim_C6_certificate_expiry_bands (now : Int) (a : String) (v : Vote)
    (da : DirectoryAuthority) (h : v.directory_authorities = [da]) :
    (da.key_certificate.expires - now ≤ 7 * 86400 →
      certificate_expiration now [(a, v)] =
        some [certExpireIssue .WARNING "week" a da.key_certificate.expires])
    ∧ (7 * 86400 < da.key_certificate.expires - now →
       da.key_certificate.expires - now ≤ 14 * 86400 →
      certificate_expiration now [(a, v)] =
        some [certExpireIssue .WARNING "two weeks" a da.key_certificate.expires])
    ∧ (14 * 86400 < da.key_certificate.expires - now →
       da.key_certificate.expires - now ≤ 21 * 86400 →
      certificate_expiration now [(a, v)] =
        some [certExpireIssue .NOTICE "three weeks" a da.key_certificate.expires])
    ∧ (21 * 86400 < da.key_certificate.expires - now →
      certificate_expiration now [(a, v)] = some []) := by
  refine ⟨fun h1 => ?_, fun h1 h2 => ?_, fun h1 h2 => ?_, fun h1 => ?_⟩
  · have hb : cert_band now a da =
        some (certExpireIssue .WARNING "week" a da.key_certificate.expires) := by
      simp only [cert_band]
      rw [if_pos h1]
    simp [certificate_expiration, h, hb]
  · have hb : cert_band now a da =
        some (certExpireIssue .WARNING "two weeks" a da.key_certificate.expires) := by
      simp only [cert_band]
      rw [if_neg (by omega), if_pos h2]
    simp [certificate_expiration, h, hb]
  · have hb : cert_band now a da =
        some (certExpireIssue .NOTICE "three weeks" a da.key_certificate.expires) := by
      simp only [cert_band]
      rw [if_neg (by omega), if_neg (by omega), if_pos h2]
    simp [certificate_expiration, h, hb]
  · have hb : cert_band now a da = none := by
      simp only [cert_band]
      rw [if_neg (by omega), if_neg (by omega), if_neg (by omega)]
    simp [certificate_expiration, h, hb]

/-- Witness for C6: a certificate expiring in 10 days (now = 0) lands in the
"two weeks" WARNING band. -/
theorem claim_C6_certificate_expiry_bands_witness :
    certificate_expiration 0
        [("moria1", { routers := [], client_versions := [],
                      directory_authorities := [⟨⟨864000⟩⟩] })] =
      some [certExpireIssue .WARNING "two weeks" "moria1" 864000] :=
  (claim_C6_certificate_expiry_bands 0 "moria1"
      { routers := [], client_versions := [], directory_authorities := [⟨⟨864000⟩⟩] }
      ⟨⟨864000⟩⟩ rfl).2.1 (by decide) (by decide)

end Doctor

namespace Doctor

/-- Latest consensus in which the known authority moria1 and the unknown
nickname Unexpected both carry the Authority flag. -/
def consensusExtraAuthority : Consensus :=
  { routers := [⟨"FP1", "moria1", ["Authority"], none⟩,
                ⟨"FP2", "Unexpected", ["Authority"], none⟩]
    client_versions := [] }

/-- C7 counterexample: with known authorities {moria1}, the nickname
Unexpected carries the Authority flag without being known, yet
`has_authority_flag` emits no issue at all — the claimed NOTICE for extra
authorities never appears, because that branch is commented out in the
source. -/
theorem claim_C7_counterexample :
    has_authority_flag ["moria1"] consensusExtraAuthority = []
    ∧ "Unexpected" ∈ seen_authority_nicknames consensusExtraAuthority
    ∧ "Unexpected" ∉ ["moria1"] := by
  decide

/-- C7 amended: if a known authority is missing from the Authority-flagged
nicknames of the latest consensus, one WARNING issue lists the missing
authorities; with none missing no issue is emitted; and every issue the
checker can emit is that WARNING — no NOTICE is ever produced for an
unexpected nickname carrying the flag (the extra-authorities branch is
disabled in the source). -/
theorem claim_C7_missing_warning_only (known_authorities : List String) (latest : Consensus) :
    (missing_authorities known_authorities latest ≠ [] →
      has_authority_flag known_authorities latest =
        [{ runlevel := .WARNING
           template := "MISSING_AUTHORITIES"
           attrs := [("authorities",
             String.intercalate ", " (missing_authorities known_authorities latest))]
           toAuth := missing_authorities known_authorities latest }])
    ∧ (missing_authorities known_authorities latest = [] →
        has_authority_flag known_authorities latest = [])
    ∧ ∀ i ∈ has_authority_flag known_authorities latest,
        i.runlevel = .WARNING ∧ i.template = "MISSING_AUTHORITIES" := by
  refine ⟨fun hne => ?_, fun heq => ?_, fun i hi => ?_⟩
  · unfold has_authority_flag
    rw [if_neg (by simpa using hne)]
  · unfold has_authority_flag
    rw [if_pos (by simpa using heq)]
  · simp only [has_authority_flag] at hi
    split_ifs at hi with hm
    · simp at hi
    · simp at hi
      subst hi
      exact ⟨rfl, rfl⟩

/-- Witness for C7's amended claim: with known authorities {moria1, tor26} and
only moria1 flagged, the checker emits the WARNING listing tor26. -/
theorem claim_C7_missing_warning_only_witness :
    missing_authorities ["moria1", "tor26"] consensusExtraAuthority ≠ [] ∧
    has_authority_flag ["moria1", "tor26"] consensusExtraAuthority =
      [{ runlevel := .WARNING
         template := "MISSING_AUTHORITIES"
         attrs := [("authorities", "tor26")]
         toAuth := ["tor26"] }] :=
  ⟨by decide,
   (claim_C7_missing_warning_only ["moria1", "tor26"] consensusExtraAuthority).1 (by decide)⟩

end Doctor

namespace Doctor

/-- A filter over a duplicate-free list whose predicate holds exactly at one
member reduces to that singleton. -/
theorem filter_eq_singleton_of_nodup {α : Type} {p : α → Bool} {l : List α} {x : α}
    (hl : l.Nodup) (hx : x ∈ l) (hpx : p x = true)
    (hother : ∀ y ∈ l, p y = true → y = x) :
    l.filter p = [x] := by
  induction l with
  | nil => cases hx
  | cons a t ih =>
    rw [List.nodup_cons] at hl
    rcases List.mem_cons.mp hx with rfl | hxt
    · rw [List.filter_cons_of_pos hpx]
      have ht : t.filter p = [] := by
        rw [List.filter_eq_nil_iff]
        intro b hb hpb
        exact hl.1 ((hother b (by simp [hb]) hpb) ▸ hb)
      rw [ht]
    · have hpa : p a = false := by
        cases hpa : p a
        · rfl
        · exact absurd ((hother a (by simp) hpa) ▸ hxt) hl.1
      rw [List.filter_cons_of_neg (by simp [hpa])]
      exact ih hl.2 hxt (fun y hy hpy => hother y (by simp [hy]) hpy)

/-- C8: the recommended-client-version checker emits no issue when every
vote's `client_versions` is empty or equals the latest consensus's; the
per-authority diff for a vote holding exactly one extra version `x` (and
missing none) renders as `authority +x` with no `-` entries; and any vote with
a non-empty differing `client_versions` makes the checker emit a NOTICE
issue. -/
theorem claim_C8_client_version_checker (latest : Consensus)
    (votes0 votes1 : List (String × Vote)) (a : String) (cvs vvs : List String)
    (x : String) (v1 : Vote) :
    ((∀ av ∈ votes0, av.2.client_versions = [] ∨
        av.2.client_versions = latest.client_versions) →
      different_recommended_client_version latest votes0 = none)
    ∧ (x ∉ cvs → x ∈ vvs → (∀ v ∈ vvs, v ∈ cvs ∨ v = x) → (∀ v ∈ cvs, v ∈ vvs) →
      _version_difference_str a cvs vvs = a ++ " +" ++ x)
    ∧ ((a, v1) ∈ votes1 → v1.client_versions ≠ [] →
        latest.client_versions ≠ v1.client_versions →
      ∃ iss, different_recommended_client_version latest votes1 = some iss ∧
        iss.runlevel = .NOTICE) := by
  refine ⟨fun hall => ?_, fun hx hxv hsub hsup => ?_, fun hmem hne hdiffne => ?_⟩
  · have hdiff : client_version_differences latest votes0 = [] := by
      unfold client_version_differences
      rw [List.filterMap_eq_nil_iff]
      intro av hav
      rcases hall av hav with h | h
      · exact if_neg (fun hc => hc.1 h)
      · exact if_neg (fun hc => hc.2 h.symm)
    simp [different_recommended_client_version, hdiff]
  · have hextras : vvs.dedup.filter (fun v => ! cvs.dedup.contains v) = [x] := by
      refine filter_eq_singleton_of_nodup (List.nodup_dedup vvs)
        (List.mem_dedup.mpr hxv) ?_ ?_
      · simp [List.mem_dedup, hx]
      · intro y hy hpy
        rcases hsub y (List.mem_dedup.mp hy) with h | h
        · simp [List.mem_dedup, h] at hpy
        · exact h
    have hmissing : cvs.dedup.filter (fun v => ! vvs.dedup.contains v) = [] := by
      rw [List.filter_eq_nil_iff]
      intro y hy
      simp [List.mem_dedup, hsup y (List.mem_dedup.mp hy)]
    simp only [_version_difference_str]
    rw [hextras, hmissing]
    rfl
  · have hd : (a, _version_difference_str a latest.client_versions v1.client_versions) ∈
        client_version_differences latest votes1 :=
      List.mem_filterMap.mpr ⟨(a, v1), hmem, by rw [if_pos ⟨hne, hdiffne⟩]⟩
    have hne2 : client_version_differences latest votes1 ≠ [] := List.ne_nil_of_mem hd
    have hsome : different_recommended_client_version latest votes1 =
        some { runlevel := .NOTICE
               template := "DIFFERENT_RECOMMENDED_VERSION"
               attrs := [("type", "client"),
                 ("differences", String.intercalate ", "
                   ((client_version_differences latest votes1).map (fun d => d.2)))]
               toAuth := (client_version_differences latest votes1).map (fun d => d.1) } := by
      simp only [different_recommended_client_version]
      rw [if_neg (fun hE => hne2 (by simpa using hE))]
    exact ⟨_, hsome, rfl⟩

/-- Consensus recommending exactly one client version. -/
def latestVers : Consensus := { routers := [], client_versions := ["0.2.9.14"] }

/-- Vote agreeing with `latestVers` on client versions. -/
def voteSameVers : Vote :=
  { routers := [], client_versions := ["0.2.9.14"], directory_authorities := [] }

/-- Vote recommending one extra client version beyond `latestVers`. -/
def voteExtraVers : Vote :=
  { routers := [], client_versions := ["0.2.9.14", "0.3.5.8"], directory_authorities := [] }

/-- Witness for C8: an agreeing vote yields no issue; a vote with the single
extra version 0.3.5.8 renders as `moria1 +0.3.5.8` and makes the checker emit
a NOTICE issue. -/
theorem claim_C8_client_version_checker_witness :
    different_recommended_client_version latestVers [("moria1", voteSameVers)] = none
    ∧ _version_difference_str "moria1" ["0.2.9.14"] ["0.2.9.14", "0.3.5.8"] =
        "moria1 +0.3.5.8"
    ∧ ∃ iss, different_recommended_client_version latestVers [("moria1", voteExtraVers)] =
        some iss ∧ iss.runlevel = .NOTICE := by
  have H := claim_C8_client_version_checker latestVers [("moria1", voteSameVers)]
    [("moria1", voteExtraVers)] "moria1" ["0.2.9.14"] ["0.2.9.14", "0.3.5.8"]
    "0.3.5.8" voteExtraVers
  exact ⟨H.1 (by decide), H.2.1 (by decide) (by decide) (by decide) (by decide),
    H.2.2 (by decide) (by decide) (by decide)⟩

end Doctor

namespace Doctor

/-- An empty latest consensus (no routers). -/
def consensusNoRouters : Consensus := { routers := [], client_versions := [] }

/-- A vote with a single measured router. -/
def voteOneRouter : Vote :=
  { routers := [⟨"F", "r1", [], some 1⟩], client_versions := [], directory_authorities := [] }

/-- A vote whose routers carry no measurement. -/
def voteNoMeasurement : Vote :=
  { routers := [⟨"H", "r0", [], none⟩], client_versions := [], directory_authorities := [] }

/-- C9 counterexample: a bandwidth authority whose vote shares no router
fingerprint with the latest consensus does not make `unmeasured_relays` skip
it and return normally — the considered-router total is 0 and the unguarded
`100 * unmeasured / total` raises a division-by-zero error (embedded as
`none`). -/
theorem claim_C9_counterexample :
    voteOneRouter.routers.filter (fun r =>
        (consensusNoRouters.routers.map (fun d => d.fingerprint)).contains r.fingerprint) = []
    ∧ unmeasured_relays (fun _ => true) consensusNoRouters [("bastet", voteOneRouter)] =
        none := by
  exact ⟨rfl, rfl⟩

/-- C9 amended: the measurement-count parity check does guard its average
against empty input — with no authority reporting a measurement it returns
with no issue and no division — but `unmeasured_relays` does not: any
bandwidth authority whose vote shares no router fingerprint with the latest
consensus makes the whole check raise a division-by-zero error (`none`); the
check is commented out of `run_checks`'s active checker list. -/
theorem claim_C9_division_guard (votes0 votes1 : List (String × Vote))
    (is_ba : String → Bool) (latest : Consensus) (a : String) (v : Vote)
    (h0 : ∀ av ∈ votes0, ∀ r ∈ av.2.routers, r.measured = none)
    (h1 : (a, v) ∈ votes1) (hba : is_ba a = true)
    (hshared : v.routers.filter (fun r =>
      (latest.routers.map (fun d => d.fingerprint)).contains r.fingerprint) = []) :
    bandwidth_authorities_in_sync votes0 = none
    ∧ unmeasured_relays is_ba latest votes1 = none := by
  constructor
  · have hcounts : measurement_counts votes0 = [] := by
      unfold measurement_counts
      rw [List.filterMap_eq_nil_iff]
      intro av hav
      have hfil : av.2.routers.filter (fun r => r.measured.isSome) = [] := by
        rw [List.filter_eq_nil_iff]
        intro r hr
        simp [h0 av hav r hr]
      simp [hfil]
    simp [bandwidth_authorities_in_sync, hcounts]
  · induction votes1 with
    | nil => cases h1
    | cons hd tl ih =>
      obtain ⟨b, w⟩ := hd
      rcases List.mem_cons.mp h1 with heq | htl
      · obtain ⟨hb, hw⟩ := Prod.mk.injEq .. ▸ heq
        subst hb hw
        simp only [unmeasured_relays, hba, if_true, hshared]
        rfl
      · by_cases hb : is_ba b = true
        · simp only [unmeasured_relays, hb, if_true]
          by_cases htot :
              ((w.routers.filter (fun r =>
                  (latest.routers.map (fun d => d.fingerprint)).contains
                    r.fingerprint)).filter (fun r => r.measured.isSome)).length +
                ((w.routers.filter (fun r =>
                  (latest.routers.map (fun d => d.fingerprint)).contains
                    r.fingerprint)).filter (fun r => ! r.measured.isSome)).length = 0
          · rw [if_pos htot]
          · rw [if_neg htot, ih htl]
        · simp only [unmeasured_relays, hb, if_false]
          exact ih htl

end Doctor

namespace Doctor

/-- Witness for C9's amended claim: the parity check returns no issue when no
vote is measured; `unmeasured_relays` fails on a bandwidth authority sharing
no fingerprint with the consensus. -/
theorem claim_C9_division_guard_witness :
    bandwidth_authorities_in_sync [("moria1", voteNoMeasurement)] = none
    ∧ unmeasured_relays (fun _ => true) consensusNoRouters [("bastet", voteOneRouter)] =
        none :=
  claim_C9_division_guard [("moria1", voteNoMeasurement)] [("bastet", voteOneRouter)]
    (fun _ => true) consensusNoRouters "bastet" voteOneRouter (by decide) (by decide)
    rfl rfl

/-- Filtering the image of a key-faithful `filterMap` over a duplicate-free
list for one key keeps at most the element produced at that key. -/
theorem filterMap_filter_key {α β : Type} [DecidableEq α] [BEq α] [LawfulBEq α]
    (g : α → Option β) (h : β → Option α)
    (hg : ∀ a b, g a = some b → h b = some a) (l : List α) (hl : l.Nodup)
    (x : α) (hx : x ∈ l) :
    (l.filterMap g).filter (fun b => h b == some x) = (g x).toList := by
  induction l with
  | nil => cases hx
  | cons a t ih =>
    rw [List.nodup_cons] at hl
    rcases List.mem_cons.mp hx with rfl | hxt
    · have htail : (t.filterMap g).filter (fun b => h b == some x) = [] := by
        rw [List.filter_eq_nil_iff]
        intro b hb
        rcases List.mem_filterMap.mp hb with ⟨c, hc, hgc⟩
        rw [hg c b hgc]
        simp only [beq_iff_eq, Option.some.injEq]
        intro hca
        exact hl.1 (hca ▸ hc)
      cases hga : g x with
      | none => simp [List.filterMap_cons, hga, htail]
      | some b =>
        have hba := hg x b hga
        simp [List.filterMap_cons, hga, List.filter_cons, hba, htail]
    · have hax : a ≠ x := fun e => hl.1 (e ▸ hxt)
      cases hga : g a with
      | none =>
        rw [List.filterMap_cons_none hga]
        exact ih hl.2 hxt
      | some b =>
        have hba := hg a b hga
        rw [List.filterMap_cons_some hga, List.filter_cons_of_neg
          (by simp [hba, hax])]
        exact ih hl.2 hxt

end Doctor

namespace Doctor

/-- C4: a fingerprint flagged by at least one but not all of the
BadExit-voting authorities yields exactly one NOTICE issue — the one listing
the non-flagging authorities that carry the fingerprint under `without flag` —
when the fingerprint is in the latest consensus and at least one non-flagging
voter carries it; it yields no issue when the fingerprint is absent from the
consensus, or when every non-flagging voter simply lacks the fingerprint in
its vote. -/
theorem claim_C4_bad_exit_agreement (latest : Consensus) (votes : List (String × Vote))
    (fp : String)
    (hsome : ∃ av ∈ bad_exits_of votes, (badExitFlagged av.2).contains fp = true)
    (hnotall : ∃ av ∈ bad_exits_of votes, (badExitFlagged av.2).contains fp = false) :
    (bad_exits_in_sync latest votes).filter
        (fun i => i.attrs.lookup "fingerprint" == some fp) =
      (if ((latest.routers.map (fun r => r.fingerprint)).contains fp
            ∧ without_flag_for votes fp ≠ []) then
        [badExitIssue votes fp]
      else [])
    ∧ (badExitIssue votes fp).runlevel = .NOTICE := by
  refine ⟨?_, rfl⟩
  have hne : bad_exits_of votes ≠ [] := by
    rcases hsome with ⟨av, hav, _⟩
    exact List.ne_nil_of_mem hav
  have hbe : bad_exits_in_sync latest votes =
      (disagreed_bad_exits votes).filterMap (bad_exit_issue_for latest votes) := by
    unfold bad_exits_in_sync
    rw [if_neg (fun hE => hne (by simpa using hE))]
  have hnodup : (disagreed_bad_exits votes).Nodup :=
    List.Nodup.filter _ (List.nodup_dedup _)
  have hmem : fp ∈ disagreed_bad_exits votes := by
    unfold disagreed_bad_exits
    rw [List.mem_filter]
    refine ⟨?_, ?_⟩
    · rw [List.mem_dedup, List.mem_flatten]
      rcases hsome with ⟨av, hav, hc⟩
      refine ⟨badExitFlagged av.2, List.mem_map_of_mem _ hav, by simpa using hc⟩
    · rcases hnotall with ⟨av, hav, hc⟩
      simp only [Bool.not_eq_true', List.all_eq_false]
      exact ⟨av, hav, by simpa using hc⟩
  have hkey : ∀ a i, bad_exit_issue_for latest votes a = some i →
      i.attrs.lookup "fingerprint" = some a := by
    intro a i hgi
    unfold bad_exit_issue_for at hgi
    by_cases hA : (without_flag_for votes a).isEmpty = true
    · rw [if_pos hA] at hgi
      cases hgi
    · rw [if_neg hA] at hgi
      by_cases hB : (! (latest.routers.map (fun r => r.fingerprint)).contains a) = true
      · rw [if_pos hB] at hgi
        cases hgi
      · rw [if_neg hB] at hgi
        cases hgi
        simp [badExitIssue, List.lookup]
  have hred : ((disagreed_bad_exits votes).filterMap
        (bad_exit_issue_for latest votes)).filter
        (fun i => i.attrs.lookup "fingerprint" == some fp) =
      (bad_exit_issue_for latest votes fp).toList :=
    filterMap_filter_key (bad_exit_issue_for latest votes)
      (fun i => i.attrs.lookup "fingerprint") hkey (disagreed_bad_exits votes)
      hnodup fp hmem
  have hfinal : (bad_exit_issue_for latest votes fp).toList =
      (if ((latest.routers.map (fun r => r.fingerprint)).contains fp
            ∧ without_flag_for votes fp ≠ []) then
        [badExitIssue votes fp]
      else []) := by
    unfold bad_exit_issue_for
    by_cases hwf : (without_flag_for votes fp).isEmpty = true
    · have hnil : without_flag_for votes fp = [] := by simpa using hwf
      rw [if_pos hwf, if_neg (fun hc => hc.2 hnil)]
      rfl
    · rw [if_neg hwf]
      by_cases hcon : ((latest.routers.map (fun r => r.fingerprint)).contains fp) = true
      · rw [if_neg (by simp only [hcon, Bool.not_true]; exact Bool.false_ne_true),
          if_pos ⟨hcon, by simpa using hwf⟩]
        rfl
      · have hcf : (latest.routers.map (fun r => r.fingerprint)).contains fp = false := by
          cases hcl : (latest.routers.map (fun r => r.fingerprint)).contains fp
          · rfl
          · exact absurd hcl hcon
        rw [if_pos (by simp only [hcf, Bool.not_false]), if_neg (fun hc => hcon hc.1)]
        rfl
  rw [hbe]
  exact hred.trans hfinal

/-- Vote of an authority flagging fingerprint F as BadExit. -/
def voteFlagsF1 : Vote :=
  { routers := [⟨"F", "r1", ["BadExit"], none⟩], client_versions := [],
    directory_authorities := [] }

/-- Second vote flagging fingerprint F as BadExit. -/
def voteFlagsF2 : Vote :=
  { routers := [⟨"F", "r2", ["BadExit"], none⟩], client_versions := [],
    directory_authorities := [] }

/-- Vote of a BadExit-voting authority (it flags G) that carries F without the
flag. -/
def voteCarriesF : Vote :=
  { routers := [⟨"F", "r3", [], none⟩, ⟨"G", "r4", ["BadExit"], none⟩],
    client_versions := [], directory_authorities := [] }

/-- Latest consensus containing fingerprint F (and not G). -/
def consensusWithF : Consensus :=
  { routers := [⟨"F", "r1", [], none⟩], client_versions := [] }

/-- Three BadExit-voting authorities: two flag F, the third carries F without
the flag. -/
def votesBadExit : List (String × Vote) :=
  [("moria1", voteFlagsF1), ("tor26", voteFlagsF2), ("dizum", voteCarriesF)]

/-- Witness for C4: in the three-authority scenario the checker emits exactly
the one NOTICE issue for F, listing dizum under `without flag`. -/
theorem claim_C4_bad_exit_agreement_witness :
    (bad_exits_in_sync consensusWithF votesBadExit).filter
        (fun i => i.attrs.lookup "fingerprint" == some "F") =
      [badExitIssue votesBadExit "F"]
    ∧ (badExitIssue votesBadExit "F").runlevel = .NOTICE := by
  have H := claim_C4_bad_exit_agreement consensusWithF votesBadExit "F"
    (by decide) (by decide)
  exact ⟨H.1.trans (by decide), H.2⟩

end Doctor
